import Mathlib

/-!
Server metrics registry: `pkg/server/metrics/metrics.go`.

A shallow embedding of the command classifier `CmdToString` and of
`InitMetricsVars`, the routine that rebinds the package-level metric handles.
The imported packages (`mysql`, `metrics`, `resourcegroup`) enter as
parameters; the Go standard library function `strconv.Itoa` and Go's keyed
slice literal are given by their language semantics.
-/

namespace ServerMetrics

/-! ## Imported packages -/

/-- The command constants `mysql.ComSleep … mysql.ComEnd` of package
`pkg/parser/mysql`, all of Go type `byte`.  The constant block is declared
outside this file, so the values are a parameter; the fields are listed in the
order in which `CmdToString` mentions them. -/
structure MysqlConsts where
  ComSleep : Nat
  ComQuit : Nat
  ComInitDB : Nat
  ComQuery : Nat
  ComPing : Nat
  ComFieldList : Nat
  ComStmtPrepare : Nat
  ComStmtExecute : Nat
  ComStmtFetch : Nat
  ComStmtClose : Nat
  ComStmtSendLongData : Nat
  ComStmtReset : Nat
  ComSetOption : Nat
  ComCreateDB : Nat
  ComDropDB : Nat
  ComRefresh : Nat
  ComShutdown : Nat
  ComStatistics : Nat
  ComProcessInfo : Nat
  ComConnect : Nat
  ComProcessKill : Nat
  ComDebug : Nat
  ComTime : Nat
  ComDelayedInsert : Nat
  ComChangeUser : Nat
  ComBinlogDump : Nat
  ComTableDump : Nat
  ComConnectOut : Nat
  ComRegisterSlave : Nat
  ComDaemon : Nat
  ComBinlogDumpGtid : Nat
  ComResetConnection : Nat
  ComEnd : Nat

/-- The constants in the order of the `switch` of `CmdToString`. -/
def MysqlConsts.enum (m : MysqlConsts) : List Nat :=
  [m.ComSleep, m.ComQuit, m.ComInitDB, m.ComQuery, m.ComPing, m.ComFieldList,
   m.ComStmtPrepare, m.ComStmtExecute, m.ComStmtFetch, m.ComStmtClose,
   m.ComStmtSendLongData, m.ComStmtReset, m.ComSetOption, m.ComCreateDB, m.ComDropDB,
   m.ComRefresh, m.ComShutdown, m.ComStatistics, m.ComProcessInfo, m.ComConnect,
   m.ComProcessKill, m.ComDebug, m.ComTime, m.ComDelayedInsert, m.ComChangeUser,
   m.ComBinlogDump, m.ComTableDump, m.ComConnectOut, m.ComRegisterSlave, m.ComDaemon,
   m.ComBinlogDumpGtid, m.ComResetConnection, m.ComEnd]

/-- The assumption made on the imported constant block: the 33 constants are
pairwise distinct (Go rejects a duplicate `case` constant and a duplicate
index of a slice literal at compile time), none exceeds `ComEnd`, and
`ComEnd` is the byte 32, so that the constants are exactly the bytes 0..32. -/
def MysqlConsts.WF (m : MysqlConsts) : Prop :=
  m.enum.Nodup ∧ (∀ c ∈ m.enum, c ≤ m.ComEnd) ∧ m.ComEnd = 32

/-- Modelled from the spec: the constant block of `pkg/parser/mysql` is not in
this file; the spec describes the opcodes as a densely-packed range
`[0, MAX_OPCODE]`, and these are the command bytes of the MySQL client/server
protocol in that range (`ComQuery` = 3, `ComPing` = 14, `ComEnd` = 32). -/
def mysqlProtocol : MysqlConsts where
  ComSleep := 0
  ComQuit := 1
  ComInitDB := 2
  ComQuery := 3
  ComPing := 14
  ComFieldList := 4
  ComStmtPrepare := 22
  ComStmtExecute := 23
  ComStmtFetch := 28
  ComStmtClose := 25
  ComStmtSendLongData := 24
  ComStmtReset := 26
  ComSetOption := 27
  ComCreateDB := 5
  ComDropDB := 6
  ComRefresh := 7
  ComShutdown := 8
  ComStatistics := 9
  ComProcessInfo := 10
  ComConnect := 11
  ComProcessKill := 12
  ComDebug := 13
  ComTime := 15
  ComDelayedInsert := 16
  ComChangeUser := 17
  ComBinlogDump := 18
  ComTableDump := 19
  ComConnectOut := 20
  ComRegisterSlave := 21
  ComDaemon := 29
  ComBinlogDumpGtid := 30
  ComResetConnection := 31
  ComEnd := 32

/-- A metric vector of the backend (`prometheus.CounterVec`,
`prometheus.HistogramVec`): `WithLabelValues` hands out the handle bound to a
list of label values. -/
structure MetricVec (H : Type) where
  WithLabelValues : List String → H

/-- The part of package `pkg/metrics` used by this file: four metric vectors
and the two label constants `LblOK` and `LblError`. -/
structure MetricsPkg (Counter Observer : Type) where
  QueryTotalCounter : MetricVec Counter
  DisconnectionCounter : MetricVec Counter
  ConnIdleDurationHistogram : MetricVec Observer
  PacketIOCounter : MetricVec Counter
  LblOK : String
  LblError : String

/-- The part of package `pkg/resourcegroup` used by this file. -/
structure ResourcegroupPkg where
  DefaultResourceGroupName : String

/-! ## Go semantics used by the file -/

namespace strconv

/-- Go's `strconv.Itoa`: the base-10 text of a signed integer, with a leading
minus sign for a negative one. -/
def Itoa (i : Int) : String :=
  if i < 0 then "-" ++ Nat.repr (-i).toNat else Nat.repr i.toNat

end strconv

/-- Length of the keyed slice literal: one more than the largest index, zero
for the empty literal. -/
def sliceLitLen {T : Type} (kvs : List (Nat × T)) : Nat :=
  kvs.foldl (fun n kv => max n (kv.1 + 1)) 0

/-- Go's keyed slice literal `[]T{k₁: v₁, …}` for an interface type `T`:
an index that has no element holds the zero value `nil`, here `none`.  (Go
rejects a duplicate constant index at compile time.) -/
def sliceLit {T : Type} (kvs : List (Nat × T)) : List (Option T) :=
  (List.range (sliceLitLen kvs)).map (fun i => (kvs.lookup i))

/-! ## The package -/

/-- The package-level variables ("server metrics vars").  A slice is the list
of its elements, an interface value is `none` when it is `nil`. -/
structure Vars (Counter Observer : Type) where
  QueryTotalCountOk : List (Option Counter)
  QueryTotalCountErr : List (Option Counter)
  DisconnectNormal : Option Counter
  DisconnectByClientWithError : Option Counter
  DisconnectErrorUndetermined : Option Counter
  ConnIdleDurationHistogramNotInTxn : Option Observer
  ConnIdleDurationHistogramInTxn : Option Observer
  InPacketBytes : Option Counter
  OutPacketBytes : Option Counter

/-- The variables before `init` runs: every one holds its zero value. -/
def Vars.zero {Counter Observer : Type} : Vars Counter Observer :=
  ⟨[], [], none, none, none, none, none, none, none⟩

/-- `CmdToString` converts a command type to a string. -/
def CmdToString (mysql : MysqlConsts) (cmd : Nat) : String :=
  if cmd = mysql.ComSleep then "Sleep"
  else if cmd = mysql.ComQuit then "Quit"
  else if cmd = mysql.ComInitDB then "InitDB"
  else if cmd = mysql.ComQuery then "Query"
  else if cmd = mysql.ComPing then "Ping"
  else if cmd = mysql.ComFieldList then "FieldList"
  else if cmd = mysql.ComStmtPrepare then "StmtPrepare"
  else if cmd = mysql.ComStmtExecute then "StmtExecute"
  else if cmd = mysql.ComStmtFetch then "StmtFetch"
  else if cmd = mysql.ComStmtClose then "StmtClose"
  else if cmd = mysql.ComStmtSendLongData then "StmtSendLongData"
  else if cmd = mysql.ComStmtReset then "StmtReset"
  else if cmd = mysql.ComSetOption then "SetOption"
  else if cmd = mysql.ComCreateDB then "CreateDB"
  else if cmd = mysql.ComDropDB then "DropDB"
  else if cmd = mysql.ComRefresh then "Refresh"
  else if cmd = mysql.ComShutdown then "Shutdown"
  else if cmd = mysql.ComStatistics then "Statistics"
  else if cmd = mysql.ComProcessInfo then "ProcessInfo"
  else if cmd = mysql.ComConnect then "Connect"
  else if cmd = mysql.ComProcessKill then "ProcessKill"
  else if cmd = mysql.ComDebug then "Debug"
  else if cmd = mysql.ComTime then "Time"
  else if cmd = mysql.ComDelayedInsert then "DelayedInsert"
  else if cmd = mysql.ComChangeUser then "ChangeUser"
  else if cmd = mysql.ComBinlogDump then "BinlogDump"
  else if cmd = mysql.ComTableDump then "TableDump"
  else if cmd = mysql.ComConnectOut then "ConnectOut"
  else if cmd = mysql.ComRegisterSlave then "RegisterSlave"
  else if cmd = mysql.ComDaemon then "Daemon"
  else if cmd = mysql.ComBinlogDumpGtid then "BinlogDumpGtid"
  else if cmd = mysql.ComResetConnection then "ResetConnection"
  else if cmd = mysql.ComEnd then "End"
  else strconv.Itoa (Int.ofNat cmd)

/-- `InitMetricsVars` initialises the server metrics variables: it assigns all
nine of them, reading nothing of the previous state. -/
def InitMetricsVars {Counter Observer : Type} (mysql : MysqlConsts)
    (metrics : MetricsPkg Counter Observer) (resourcegroup : ResourcegroupPkg)
    (_old : Vars Counter Observer) : Vars Counter Observer where
  QueryTotalCountOk := sliceLit [
      (mysql.ComSleep, metrics.QueryTotalCounter.WithLabelValues ["Sleep", "OK", resourcegroup.DefaultResourceGroupName]),
      (mysql.ComQuit, metrics.QueryTotalCounter.WithLabelValues ["Quit", "OK", resourcegroup.DefaultResourceGroupName]),
      (mysql.ComInitDB, metrics.QueryTotalCounter.WithLabelValues ["InitDB", "OK", resourcegroup.DefaultResourceGroupName]),
      (mysql.ComQuery, metrics.QueryTotalCounter.WithLabelValues ["Query", "OK", resourcegroup.DefaultResourceGroupName]),
      (mysql.ComPing, metrics.QueryTotalCounter.WithLabelValues ["Ping", "OK", resourcegroup.DefaultResourceGroupName]),
      (mysql.ComFieldList, metrics.QueryTotalCounter.WithLabelValues ["FieldList", "OK", resourcegroup.DefaultResourceGroupName]),
      (mysql.ComStmtPrepare, metrics.QueryTotalCounter.WithLabelValues ["StmtPrepare", "OK", resourcegroup.DefaultResourceGroupName]),
      (mysql.ComStmtExecute, metrics.QueryTotalCounter.WithLabelValues ["StmtExecute", "OK", resourcegroup.DefaultResourceGroupName]),
      (mysql.ComStmtFetch, metrics.QueryTotalCounter.WithLabelValues ["StmtFetch", "OK", resourcegroup.DefaultResourceGroupName]),
      (mysql.ComStmtClose, metrics.QueryTotalCounter.WithLabelValues ["StmtClose", "OK", resourcegroup.DefaultResourceGroupName]),
      (mysql.ComStmtSendLongData, metrics.QueryTotalCounter.WithLabelValues ["StmtSendLongData", "OK", resourcegroup.DefaultResourceGroupName]),
      (mysql.ComStmtReset, metrics.QueryTotalCounter.WithLabelValues ["StmtReset", "OK", resourcegroup.DefaultResourceGroupName]),
      (mysql.ComSetOption, metrics.QueryTotalCounter.WithLabelValues ["SetOption", "OK", resourcegroup.DefaultResourceGroupName]),
      (mysql.ComCreateDB, metrics.QueryTotalCounter.WithLabelValues ["CreateDB", "OK", resourcegroup.DefaultResourceGroupName]),
      (mysql.ComDropDB, metrics.QueryTotalCounter.WithLabelValues ["DropDB", "OK", resourcegroup.DefaultResourceGroupName]),
      (mysql.ComRefresh, metrics.QueryTotalCounter.WithLabelValues ["Refresh", "OK", resourcegroup.DefaultResourceGroupName]),
      (mysql.ComShutdown, metrics.QueryTotalCounter.WithLabelValues ["Shutdown", "OK", resourcegroup.DefaultResourceGroupName]),
      (mysql.ComStatistics, metrics.QueryTotalCounter.WithLabelValues ["Statistics", "OK", resourcegroup.DefaultResourceGroupName]),
      (mysql.ComProcessInfo, metrics.QueryTotalCounter.WithLabelValues ["ProcessInfo", "OK", resourcegroup.DefaultResourceGroupName]),
      (mysql.ComConnect, metrics.QueryTotalCounter.WithLabelValues ["Connect", "OK", resourcegroup.DefaultResourceGroupName]),
      (mysql.ComProcessKill, metrics.QueryTotalCounter.WithLabelValues ["ProcessKill", "OK", resourcegroup.DefaultResourceGroupName]),
      (mysql.ComDebug, metrics.QueryTotalCounter.WithLabelValues ["Debug", "OK", resourcegroup.DefaultResourceGroupName]),
      (mysql.ComTime, metrics.QueryTotalCounter.WithLabelValues ["Time", "OK", resourcegroup.DefaultResourceGroupName]),
      (mysql.ComDelayedInsert, metrics.QueryTotalCounter.WithLabelValues ["DelayedInsert", "OK", resourcegroup.DefaultResourceGroupName]),
      (mysql.ComChangeUser, metrics.QueryTotalCounter.WithLabelValues ["ChangeUser", "OK", resourcegroup.DefaultResourceGroupName]),
      (mysql.ComBinlogDump, metrics.QueryTotalCounter.WithLabelValues ["BinlogDump", "OK", resourcegroup.DefaultResourceGroupName]),
      (mysql.ComTableDump, metrics.QueryTotalCounter.WithLabelValues ["TableDump", "OK", resourcegroup.DefaultResourceGroupName]),
      (mysql.ComConnectOut, metrics.QueryTotalCounter.WithLabelValues ["ConnectOut", "OK", resourcegroup.DefaultResourceGroupName]),
      (mysql.ComRegisterSlave, metrics.QueryTotalCounter.WithLabelValues ["RegisterSlave", "OK", resourcegroup.DefaultResourceGroupName]),
      (mysql.ComDaemon, metrics.QueryTotalCounter.WithLabelValues ["Daemon", "OK", resourcegroup.DefaultResourceGroupName]),
      (mysql.ComBinlogDumpGtid, metrics.QueryTotalCounter.WithLabelValues ["BinlogDumpGtid", "OK", resourcegroup.DefaultResourceGroupName]),
      (mysql.ComResetConnection, metrics.QueryTotalCounter.WithLabelValues ["ResetConnection", "OK", resourcegroup.DefaultResourceGroupName]),
      (mysql.ComEnd, metrics.QueryTotalCounter.WithLabelValues ["End", "OK", resourcegroup.DefaultResourceGroupName])]
  QueryTotalCountErr := sliceLit [
      (mysql.ComSleep, metrics.QueryTotalCounter.WithLabelValues ["Sleep", "Error", resourcegroup.DefaultResourceGroupName]),
      (mysql.ComQuit, metrics.QueryTotalCounter.WithLabelValues ["Quit", "Error", resourcegroup.DefaultResourceGroupName]),
      (mysql.ComInitDB, metrics.QueryTotalCounter.WithLabelValues ["InitDB", "Error", resourcegroup.DefaultResourceGroupName]),
      (mysql.ComQuery, metrics.QueryTotalCounter.WithLabelValues ["Query", "Error", resourcegroup.DefaultResourceGroupName]),
      (mysql.ComPing, metrics.QueryTotalCounter.WithLabelValues ["Ping", "Error", resourcegroup.DefaultResourceGroupName]),
      (mysql.ComFieldList, metrics.QueryTotalCounter.WithLabelValues ["FieldList", "Error", resourcegroup.DefaultResourceGroupName]),
      (mysql.ComStmtPrepare, metrics.QueryTotalCounter.WithLabelValues ["StmtPrepare", "Error", resourcegroup.DefaultResourceGroupName]),
      (mysql.ComStmtExecute, metrics.QueryTotalCounter.WithLabelValues ["StmtExecute", "Error", resourcegroup.DefaultResourceGroupName]),
      (mysql.ComStmtFetch, metrics.QueryTotalCounter.WithLabelValues ["StmtFetch", "Error", resourcegroup.DefaultResourceGroupName]),
      (mysql.ComStmtClose, metrics.QueryTotalCounter.WithLabelValues ["StmtClose", "Error", resourcegroup.DefaultResourceGroupName]),
      (mysql.ComStmtSendLongData, metrics.QueryTotalCounter.WithLabelValues ["StmtSendLongData", "Error", resourcegroup.DefaultResourceGroupName]),
      (mysql.ComStmtReset, metrics.QueryTotalCounter.WithLabelValues ["StmtReset", "Error", resourcegroup.DefaultResourceGroupName]),
      (mysql.ComSetOption, metrics.QueryTotalCounter.WithLabelValues ["SetOption", "Error", resourcegroup.DefaultResourceGroupName]),
      (mysql.ComCreateDB, metrics.QueryTotalCounter.WithLabelValues ["CreateDB", "Error", resourcegroup.DefaultResourceGroupName]),
      (mysql.ComDropDB, metrics.QueryTotalCounter.WithLabelValues ["DropDB", "Error", resourcegroup.DefaultResourceGroupName]),
      (mysql.ComRefresh, metrics.QueryTotalCounter.WithLabelValues ["Refresh", "Error", resourcegroup.DefaultResourceGroupName]),
      (mysql.ComShutdown, metrics.QueryTotalCounter.WithLabelValues ["Shutdown", "Error", resourcegroup.DefaultResourceGroupName]),
      (mysql.ComStatistics, metrics.QueryTotalCounter.WithLabelValues ["Statistics", "Error", resourcegroup.DefaultResourceGroupName]),
      (mysql.ComProcessInfo, metrics.QueryTotalCounter.WithLabelValues ["ProcessInfo", "Error", resourcegroup.DefaultResourceGroupName]),
      (mysql.ComConnect, metrics.QueryTotalCounter.WithLabelValues ["Connect", "Error", resourcegroup.DefaultResourceGroupName]),
      (mysql.ComProcessKill, metrics.QueryTotalCounter.WithLabelValues ["ProcessKill", "Error", resourcegroup.DefaultResourceGroupName]),
      (mysql.ComDebug, metrics.QueryTotalCounter.WithLabelValues ["Debug", "Error", resourcegroup.DefaultResourceGroupName]),
      (mysql.ComTime, metrics.QueryTotalCounter.WithLabelValues ["Time", "Error", resourcegroup.DefaultResourceGroupName]),
      (mysql.ComDelayedInsert, metrics.QueryTotalCounter.WithLabelValues ["DelayedInsert", "Error", resourcegroup.DefaultResourceGroupName]),
      (mysql.ComChangeUser, metrics.QueryTotalCounter.WithLabelValues ["ChangeUser", "Error", resourcegroup.DefaultResourceGroupName]),
      (mysql.ComBinlogDump, metrics.QueryTotalCounter.WithLabelValues ["BinlogDump", "Error", resourcegroup.DefaultResourceGroupName]),
      (mysql.ComTableDump, metrics.QueryTotalCounter.WithLabelValues ["TableDump", "Error", resourcegroup.DefaultResourceGroupName]),
      (mysql.ComConnectOut, metrics.QueryTotalCounter.WithLabelValues ["ConnectOut", "Error", resourcegroup.DefaultResourceGroupName]),
      (mysql.ComRegisterSlave, metrics.QueryTotalCounter.WithLabelValues ["RegisterSlave", "Error", resourcegroup.DefaultResourceGroupName]),
      (mysql.ComDaemon, metrics.QueryTotalCounter.WithLabelValues ["Daemon", "Error", resourcegroup.DefaultResourceGroupName]),
      (mysql.ComBinlogDumpGtid, metrics.QueryTotalCounter.WithLabelValues ["BinlogDumpGtid", "Error", resourcegroup.DefaultResourceGroupName]),
      (mysql.ComResetConnection, metrics.QueryTotalCounter.WithLabelValues ["ResetConnection", "Error", resourcegroup.DefaultResourceGroupName]),
      (mysql.ComEnd, metrics.QueryTotalCounter.WithLabelValues ["End", "Error", resourcegroup.DefaultResourceGroupName])]
  DisconnectNormal := some (metrics.DisconnectionCounter.WithLabelValues [metrics.LblOK])
  DisconnectByClientWithError := some (metrics.DisconnectionCounter.WithLabelValues [metrics.LblError])
  DisconnectErrorUndetermined := some (metrics.DisconnectionCounter.WithLabelValues ["undetermined"])
  ConnIdleDurationHistogramNotInTxn := some (metrics.ConnIdleDurationHistogram.WithLabelValues ["0"])
  ConnIdleDurationHistogramInTxn := some (metrics.ConnIdleDurationHistogram.WithLabelValues ["1"])
  InPacketBytes := some (metrics.PacketIOCounter.WithLabelValues ["In"])
  OutPacketBytes := some (metrics.PacketIOCounter.WithLabelValues ["Out"])

/-- The package's `init` function: `InitMetricsVars` run on the zero state. -/
def init {Counter Observer : Type} (mysql : MysqlConsts)
    (metrics : MetricsPkg Counter Observer) (resourcegroup : ResourcegroupPkg) :
    Vars Counter Observer :=
  InitMetricsVars mysql metrics resourcegroup Vars.zero

/-! ## Auxiliary definitions for the statements and proofs -/

/-- The `case` labels of the `switch` in `CmdToString` with the string each
one returns, in source order. -/
def cmdNames (mysql : MysqlConsts) : List (Nat × String) :=
  [
   (mysql.ComSleep, "Sleep"),
   (mysql.ComQuit, "Quit"),
   (mysql.ComInitDB, "InitDB"),
   (mysql.ComQuery, "Query"),
   (mysql.ComPing, "Ping"),
   (mysql.ComFieldList, "FieldList"),
   (mysql.ComStmtPrepare, "StmtPrepare"),
   (mysql.ComStmtExecute, "StmtExecute"),
   (mysql.ComStmtFetch, "StmtFetch"),
   (mysql.ComStmtClose, "StmtClose"),
   (mysql.ComStmtSendLongData, "StmtSendLongData"),
   (mysql.ComStmtReset, "StmtReset"),
   (mysql.ComSetOption, "SetOption"),
   (mysql.ComCreateDB, "CreateDB"),
   (mysql.ComDropDB, "DropDB"),
   (mysql.ComRefresh, "Refresh"),
   (mysql.ComShutdown, "Shutdown"),
   (mysql.ComStatistics, "Statistics"),
   (mysql.ComProcessInfo, "ProcessInfo"),
   (mysql.ComConnect, "Connect"),
   (mysql.ComProcessKill, "ProcessKill"),
   (mysql.ComDebug, "Debug"),
   (mysql.ComTime, "Time"),
   (mysql.ComDelayedInsert, "DelayedInsert"),
   (mysql.ComChangeUser, "ChangeUser"),
   (mysql.ComBinlogDump, "BinlogDump"),
   (mysql.ComTableDump, "TableDump"),
   (mysql.ComConnectOut, "ConnectOut"),
   (mysql.ComRegisterSlave, "RegisterSlave"),
   (mysql.ComDaemon, "Daemon"),
   (mysql.ComBinlogDumpGtid, "BinlogDumpGtid"),
   (mysql.ComResetConnection, "ResetConnection"),
   (mysql.ComEnd, "End")]

/-- The strings returned by the `case` branches of `CmdToString`. -/
def cmdNameList : List String :=
  [
   "Sleep", "Quit", "InitDB", "Query", "Ping", "FieldList", "StmtPrepare",
   "StmtExecute", "StmtFetch", "StmtClose", "StmtSendLongData", "StmtReset",
   "SetOption", "CreateDB", "DropDB", "Refresh", "Shutdown", "Statistics",
   "ProcessInfo", "Connect", "ProcessKill", "Debug", "Time", "DelayedInsert",
   "ChangeUser", "BinlogDump", "TableDump", "ConnectOut", "RegisterSlave", "Daemon",
   "BinlogDumpGtid", "ResetConnection", "End"]

/-- A Go `switch` over constant cases that all `return`: the first case equal
to the tag decides, otherwise control reaches the statement after the switch. -/
def switchOn (cases : List (Nat × String)) (cmd : Nat) (dflt : String) : String :=
  match cases with
  | [] => dflt
  | (k, name) :: rest => if cmd = k then name else switchOn rest cmd dflt

/-- Reading an unsigned base-10 numeral: `none` on the empty string and on
any character that is not a decimal digit. -/
def parseDecimal (s : String) : Option Nat :=
  match s.data with
  | [] => none
  | cs => cs.foldlM (fun n c => if c.isDigit then some (10 * n + (c.toNat - 48)) else none) 0

/-- A base-10 numeral without sign and without leading zeros: digits only,
and the first digit is `0` only when it is the whole numeral. -/
def isCanonicalDecimal (s : String) : Bool :=
  match s.data with
  | [] => false
  | [c] => c.isDigit
  | c :: cs => c.isDigit && c != '0' && cs.all Char.isDigit

/-- Go's conversion `byte(n)` of an integer to the parameter type of
`CmdToString`: the low eight bits, so a negative or large integer wraps to a
byte and a byte is its own conversion. -/
def goByte (n : Int) : Nat :=
  (n % 256).toNat

/-- Go's index expression `s[i]` on a slice: a run-time panic when `i` is out
of range. -/
def sliceIndex {T : Type} (s : List T) (i : Nat) : Except String T :=
  match s[i]? with
  | some x => .ok x
  | none => .error "index out of range"

/-- Modelled from the spec: the counter lookup done at increment time belongs
to the connection layer and is not in this file.  Spec §4.2, §7 and §9: the
bound check is explicit; an opcode in `[0, MAX_OPCODE]` forwards to the cached
handle at its index, any other opcode is routed to a fallback bucket rather
than indexing the table. -/
def lookupCounter {Counter : Type} (mysql : MysqlConsts) (table : List (Option Counter))
    (fallback : Counter) (opcode : Nat) : Except String (Option Counter) :=
  if opcode ≤ mysql.ComEnd then sliceIndex table opcode else .ok (some fallback)

/-- The four metric vectors of the backend that the file draws handles from. -/
inductive VecId where
  | QueryTotalCounter
  | DisconnectionCounter
  | ConnIdleDurationHistogram
  | PacketIOCounter
  deriving DecidableEq

/-- A series of the backend: a metric vector together with the label values
the handle was requested with. -/
abbrev Series : Type := VecId × List String

/-- A backend in which a handle is the series it is bound to, so that asking
twice for the same label values gives the same handle.  The two label
constants of the package are parameters. -/
def seriesBackend (LblOK LblError : String) : MetricsPkg Series Series where
  QueryTotalCounter := ⟨fun lvs => (VecId.QueryTotalCounter, lvs)⟩
  DisconnectionCounter := ⟨fun lvs => (VecId.DisconnectionCounter, lvs)⟩
  ConnIdleDurationHistogram := ⟨fun lvs => (VecId.ConnIdleDurationHistogram, lvs)⟩
  PacketIOCounter := ⟨fun lvs => (VecId.PacketIOCounter, lvs)⟩
  LblOK := LblOK
  LblError := LblError

/-- The backend as a map from series to count: `Inc` through a handle adds one
to the series the handle is bound to and leaves every other series alone.
Through a `nil` handle there is no result. -/
def Inc (store : Series → Nat) (handle : Option Series) : Option (Series → Nat) :=
  match handle with
  | none => none
  | some k => some (fun k' => if k' = k then store k' + 1 else store k')

/-- The bytes on which `CmdToString` returns at a `case` of its `switch`: the
result is not the decimal fallback of the final `return`. -/
def recognizedOpcodes (mysql : MysqlConsts) : Finset Nat :=
  (Finset.range 256).filter (fun c => CmdToString mysql c ≠ strconv.Itoa (Int.ofNat c))

/-- The strings `CmdToString` returns on the recognized bytes. -/
def canonicalNames (mysql : MysqlConsts) : Finset String :=
  (recognizedOpcodes mysql).image (CmdToString mysql)

/-- A histogram vector as a map from series to the values observed so far:
`Observe` through a handle appends the value to the series the handle is
bound to.  Through a `nil` handle there is no result. -/
def Observe {V : Type} (store : Series → List V) (handle : Option Series) (v : V) :
    Option (Series → List V) :=
  match handle with
  | none => none
  | some k => some (fun k' => if k' = k then store k' ++ [v] else store k')

/-- A counter vector as a map from series to count: `Add` through a handle
adds `n` to the series the handle is bound to.  Through a `nil` handle there
is no result. -/
def Add (store : Series → Nat) (handle : Option Series) (n : Nat) : Option (Series → Nat) :=
  match handle with
  | none => none
  | some k => some (fun k' => if k' = k then store k' + n else store k')

/-- The two outcomes of a command, one per opcode-indexed table. -/
inductive Outcome where
  | Ok
  | Error
  deriving DecidableEq

/-- The table of an outcome: `QueryTotalCountOk` or `QueryTotalCountErr`. -/
def Vars.QueryTotalCount {Counter Observer : Type} (v : Vars Counter Observer) :
    Outcome → List (Option Counter)
  | .Ok => v.QueryTotalCountOk
  | .Error => v.QueryTotalCountErr

/-- The outcome label that the entries of each table are requested with. -/
def Outcome.label : Outcome → String
  | .Ok => "OK"
  | .Error => "Error"

/-- The nine package variables. -/
inductive PkgVar where
  | QueryTotalCountOk
  | QueryTotalCountErr
  | DisconnectNormal
  | DisconnectByClientWithError
  | DisconnectErrorUndetermined
  | ConnIdleDurationHistogramNotInTxn
  | ConnIdleDurationHistogramInTxn
  | InPacketBytes
  | OutPacketBytes
  deriving DecidableEq

/-- One assignment statement `x = e` to a package variable: the variable takes
the value that `new` holds for it, every other variable keeps its value. -/
def assignVar {Counter Observer : Type} (new : Vars Counter Observer) (x : PkgVar)
    (s : Vars Counter Observer) : Vars Counter Observer :=
  match x with
  | .QueryTotalCountOk => { s with QueryTotalCountOk := new.QueryTotalCountOk }
  | .QueryTotalCountErr => { s with QueryTotalCountErr := new.QueryTotalCountErr }
  | .DisconnectNormal => { s with DisconnectNormal := new.DisconnectNormal }
  | .DisconnectByClientWithError =>
      { s with DisconnectByClientWithError := new.DisconnectByClientWithError }
  | .DisconnectErrorUndetermined =>
      { s with DisconnectErrorUndetermined := new.DisconnectErrorUndetermined }
  | .ConnIdleDurationHistogramNotInTxn =>
      { s with ConnIdleDurationHistogramNotInTxn := new.ConnIdleDurationHistogramNotInTxn }
  | .ConnIdleDurationHistogramInTxn =>
      { s with ConnIdleDurationHistogramInTxn := new.ConnIdleDurationHistogramInTxn }
  | .InPacketBytes => { s with InPacketBytes := new.InPacketBytes }
  | .OutPacketBytes => { s with OutPacketBytes := new.OutPacketBytes }

/-- The left-hand sides of the nine assignment statements of the body of
`InitMetricsVars`, in source order. -/
def initStatements : List PkgVar :=
  [.QueryTotalCountOk, .QueryTotalCountErr, .DisconnectNormal, .DisconnectByClientWithError,
   .DisconnectErrorUndetermined, .ConnIdleDurationHistogramNotInTxn,
   .ConnIdleDurationHistogramInTxn, .InPacketBytes, .OutPacketBytes]

/-- The package variables after the first `k` statements of a run that started
in `old` and assigns the values held by `new`. -/
def stateAfter {Counter Observer : Type} (new old : Vars Counter Observer) (k : Nat) :
    Vars Counter Observer :=
  (initStatements.take k).foldl (fun s x => assignVar new x s) old

/-- The body of `InitMetricsVars` statement by statement: the package variables
after its first `k` assignments, started in `old`.  No right-hand side reads a
package variable, so each statement assigns the value the finished run holds. -/
def InitMetricsVarsSteps {Counter Observer : Type} (k : Nat) (mysql : MysqlConsts)
    (metrics : MetricsPkg Counter Observer) (resourcegroup : ResourcegroupPkg)
    (old : Vars Counter Observer) : Vars Counter Observer :=
  stateAfter (InitMetricsVars mysql metrics resourcegroup old) old k

theorem CmdToString_eq_switchOn (mysql : MysqlConsts) (cmd : Nat) :
    CmdToString mysql cmd = switchOn (cmdNames mysql) cmd (strconv.Itoa (Int.ofNat cmd)) := rfl

theorem switchOn_eq_lookup (cases : List (Nat × String)) (cmd : Nat) (dflt : String) :
    switchOn cases cmd dflt = (cases.lookup cmd).getD dflt := by
  induction cases with
  | nil => rfl
  | cons p rest ih =>
    obtain ⟨k, name⟩ := p
    by_cases h : cmd = k
    · simp [switchOn, List.lookup, h]
    · have : (cmd == k) = false := by simpa using h
      simp [switchOn, List.lookup, h, this, ih]

theorem CmdToString_eq_lookup (mysql : MysqlConsts) (cmd : Nat) :
    CmdToString mysql cmd
      = ((cmdNames mysql).lookup cmd).getD (strconv.Itoa (Int.ofNat cmd)) := by
  rw [CmdToString_eq_switchOn, switchOn_eq_lookup]

theorem cmdNames_keys (mysql : MysqlConsts) : (cmdNames mysql).map Prod.fst = mysql.enum := rfl

theorem lookup_of_mem_nodup {β : Type} (kvs : List (Nat × β)) (hnd : (kvs.map Prod.fst).Nodup)
    (k : Nat) (v : β) (h : (k, v) ∈ kvs) : kvs.lookup k = some v := by
  induction kvs with
  | nil => simp at h
  | cons p rest ih =>
    obtain ⟨k', v'⟩ := p
    simp only [List.map_cons, List.nodup_cons] at hnd
    rcases List.mem_cons.mp h with heq | hmem
    · cases heq
      simp [List.lookup]
    · have hne : k ≠ k' := by
        rintro rfl
        exact hnd.1 (List.mem_map_of_mem Prod.fst hmem)
      have hb : (k == k') = false := by simpa using hne
      simp [List.lookup, hb, ih hnd.2 hmem]

theorem lookup_of_mem_keys {β : Type} (kvs : List (Nat × β)) (k : Nat)
    (h : k ∈ kvs.map Prod.fst) : ∃ v, kvs.lookup k = some v ∧ (k, v) ∈ kvs := by
  induction kvs with
  | nil => simp at h
  | cons p rest ih =>
    obtain ⟨k', v'⟩ := p
    by_cases hk : k = k'
    · subst hk
      exact ⟨v', by simp [List.lookup], by simp⟩
    · have hb : (k == k') = false := by simpa using hk
      have hmem : k ∈ rest.map Prod.fst := by
        simpa [hk] using h
      obtain ⟨v, hv, hin⟩ := ih hmem
      exact ⟨v, by simp [List.lookup, hb, hv], List.mem_cons_of_mem _ hin⟩

theorem lookup_eq_none_of_not_mem {β : Type} (kvs : List (Nat × β)) (k : Nat)
    (h : k ∉ kvs.map Prod.fst) : kvs.lookup k = none := by
  induction kvs with
  | nil => rfl
  | cons p rest ih =>
    obtain ⟨k', v'⟩ := p
    simp only [List.map_cons, List.mem_cons, not_or] at h
    have hb : (k == k') = false := by simpa using h.1
    simp [List.lookup, hb, ih h.2]

theorem MysqlConsts.WF.mem_enum {m : MysqlConsts} (h : m.WF) {i : Nat} (hi : i ≤ 32) :
    i ∈ m.enum := by
  obtain ⟨hnd, hle, hend⟩ := h
  have hsub : m.enum.toFinset ⊆ Finset.range 33 := by
    intro c hc
    have := hle c (List.mem_toFinset.mp hc)
    exact Finset.mem_range.mpr (by omega)
  have hcard : m.enum.toFinset.card = 33 := by
    rw [List.toFinset_card_of_nodup hnd]; rfl
  have heq := Finset.eq_of_subset_of_card_le hsub (by simp [hcard])
  have hi' : i ∈ Finset.range 33 := Finset.mem_range.mpr (by omega)
  rw [← heq] at hi'
  exact List.mem_toFinset.mp hi'

theorem mysqlProtocol_WF : mysqlProtocol.WF := by
  refine ⟨by decide, by decide, rfl⟩

theorem CmdToString_of_mem (mysql : MysqlConsts) (hnd : mysql.enum.Nodup) :
    ∀ p ∈ cmdNames mysql, CmdToString mysql p.1 = p.2 := by
  intro p hp
  rw [CmdToString_eq_lookup, lookup_of_mem_nodup _ (by rw [cmdNames_keys]; exact hnd) p.1 p.2 hp]
  rfl

theorem cmdNames_names (mysql : MysqlConsts) : (cmdNames mysql).map Prod.snd = cmdNameList := rfl

theorem Itoa_ofNat (c : Nat) : strconv.Itoa (Int.ofNat c) = Nat.repr c := by
  simp [strconv.Itoa]

set_option maxRecDepth 100000 in
theorem repr_byte_ne_empty : ∀ c < 256, Nat.repr c ≠ "" := by decide

set_option maxRecDepth 100000 in
theorem parseDecimal_repr_byte : ∀ c < 256, parseDecimal (Nat.repr c) = some c := by decide

set_option maxRecDepth 100000 in
theorem isCanonicalDecimal_repr_byte : ∀ c < 256, isCanonicalDecimal (Nat.repr c) = true := by
  decide

set_option maxRecDepth 100000 in
theorem parseDecimal_cmdNameList : ∀ n ∈ cmdNameList, parseDecimal n = none := by decide

set_option maxRecDepth 100000 in
theorem cmdNameList_ne_empty : ∀ n ∈ cmdNameList, n ≠ "" := by decide

set_option maxRecDepth 100000 in
theorem cmdNameList_nodup : cmdNameList.Nodup := by decide


/-! ### The keyed slice literal -/

theorem foldl_len_ge {T : Type} (kvs : List (Nat × T)) (n : Nat) :
    n ≤ kvs.foldl (fun n kv => max n (kv.1 + 1)) n := by
  induction kvs generalizing n with
  | nil => simp
  | cons p rest ih =>
    simp only [List.foldl_cons]
    exact le_trans (le_max_left _ _) (ih _)

theorem foldl_len_gt_key {T : Type} (kvs : List (Nat × T)) (n k : Nat)
    (hk : k ∈ kvs.map Prod.fst) : k + 1 ≤ kvs.foldl (fun n kv => max n (kv.1 + 1)) n := by
  induction kvs generalizing n with
  | nil => simp at hk
  | cons p rest ih =>
    simp only [List.foldl_cons]
    simp only [List.map_cons, List.mem_cons] at hk
    rcases hk with rfl | hk
    · exact le_trans (le_max_right _ _) (foldl_len_ge rest _)
    · exact ih _ hk

theorem foldl_len_le {T : Type} (kvs : List (Nat × T)) (n b : Nat) (hn : n ≤ b)
    (hk : ∀ k ∈ kvs.map Prod.fst, k + 1 ≤ b) :
    kvs.foldl (fun n kv => max n (kv.1 + 1)) n ≤ b := by
  induction kvs generalizing n with
  | nil => simpa using hn
  | cons p rest ih =>
    simp only [List.foldl_cons]
    apply ih
    · exact max_le hn (hk p.1 (by simp))
    · intro k hk'
      exact hk k (by simp only [List.map_cons, List.mem_cons]; exact Or.inr hk')

theorem sliceLitLen_eq {T : Type} (kvs : List (Nat × T)) (top : Nat)
    (htop : top ∈ kvs.map Prod.fst) (hle : ∀ k ∈ kvs.map Prod.fst, k ≤ top) :
    sliceLitLen kvs = top + 1 := by
  apply le_antisymm
  · exact foldl_len_le kvs 0 (top + 1) (Nat.zero_le _) (fun k hk => Nat.succ_le_succ (hle k hk))
  · exact foldl_len_gt_key kvs 0 top htop

theorem length_sliceLit {T : Type} (kvs : List (Nat × T)) :
    (sliceLit kvs).length = sliceLitLen kvs := by
  simp [sliceLit]

theorem sliceLit_getElem? {T : Type} (kvs : List (Nat × T)) (i : Nat) :
    (sliceLit kvs)[i]? = if i < sliceLitLen kvs then some (kvs.lookup i) else none := by
  unfold sliceLit
  rw [List.getElem?_map]
  by_cases h : i < sliceLitLen kvs
  · rw [List.getElem?_range h, if_pos h]; rfl
  · rw [List.getElem?_eq_none (by simpa using h), if_neg h]; rfl

theorem lookup_map_snd {A B : Type} (f : A → B) (kvs : List (Nat × A)) (i : Nat) :
    (kvs.map (fun p => (p.1, f p.2))).lookup i = (kvs.lookup i).map f := by
  induction kvs with
  | nil => rfl
  | cons p rest ih =>
    obtain ⟨k, v⟩ := p
    by_cases h : i = k
    · subst h; simp [List.lookup]
    · have hb : (i == k) = false := by simpa using h
      simp [List.lookup, hb, ih]


/-! ### The two tables of `InitMetricsVars` -/
section
variable {Counter Observer : Type} (mysql : MysqlConsts) (metrics : MetricsPkg Counter Observer)
  (resourcegroup : ResourcegroupPkg) (old : Vars Counter Observer)

theorem QueryTotalCountOk_eq :
    (InitMetricsVars mysql metrics resourcegroup old).QueryTotalCountOk
      = sliceLit ((cmdNames mysql).map (fun p => (p.1,
          metrics.QueryTotalCounter.WithLabelValues
            [p.2, "OK", resourcegroup.DefaultResourceGroupName]))) := by
  simp only [InitMetricsVars, cmdNames, List.map_cons, List.map_nil]

theorem QueryTotalCountErr_eq :
    (InitMetricsVars mysql metrics resourcegroup old).QueryTotalCountErr
      = sliceLit ((cmdNames mysql).map (fun p => (p.1,
          metrics.QueryTotalCounter.WithLabelValues
            [p.2, "Error", resourcegroup.DefaultResourceGroupName]))) := by
  simp only [InitMetricsVars, cmdNames, List.map_cons, List.map_nil]
end

theorem MysqlConsts.ComEnd_mem_enum (m : MysqlConsts) : m.ComEnd ∈ m.enum := by
  simp [MysqlConsts.enum]

theorem sliceLitLen_cmdNames_map {T : Type} (mysql : MysqlConsts) (h : mysql.WF)
    (f : String → T) :
    sliceLitLen ((cmdNames mysql).map (fun p => (p.1, f p.2))) = mysql.ComEnd + 1 := by
  have hkeys : ((cmdNames mysql).map (fun p => (p.1, f p.2))).map Prod.fst = mysql.enum := rfl
  apply sliceLitLen_eq
  · rw [hkeys]; exact mysql.ComEnd_mem_enum
  · rw [hkeys]; exact h.2.1

theorem sliceLit_cmdNames_getElem? {T : Type} (mysql : MysqlConsts) (h : mysql.WF)
    (f : String → T) (i : Nat) (hi : i ≤ mysql.ComEnd) :
    (sliceLit ((cmdNames mysql).map (fun p => (p.1, f p.2))))[i]?
      = some (some (f (CmdToString mysql i))) := by
  have hi32 : i ≤ 32 := by rw [← h.2.2]; exact hi
  obtain ⟨name, hname, -⟩ := lookup_of_mem_keys (cmdNames mysql) i
    (by rw [cmdNames_keys]; exact h.mem_enum hi32)
  rw [sliceLit_getElem?, sliceLitLen_cmdNames_map mysql h, if_pos (Nat.lt_succ_of_le hi),
    lookup_map_snd, CmdToString_eq_lookup, hname]
  rfl

theorem sliceLit_cmdNames_getElem?_none {T : Type} (mysql : MysqlConsts) (h : mysql.WF)
    (f : String → T) (i : Nat) (hi : mysql.ComEnd < i) :
    (sliceLit ((cmdNames mysql).map (fun p => (p.1, f p.2))))[i]? = none := by
  rw [sliceLit_getElem?, sliceLitLen_cmdNames_map mysql h, if_neg (by omega)]


theorem CmdToString_cases (mysql : MysqlConsts) (cmd : Nat) :
    (∃ name, (cmd, name) ∈ cmdNames mysql ∧ CmdToString mysql cmd = name) ∨
    (cmd ∉ mysql.enum ∧ CmdToString mysql cmd = strconv.Itoa (Int.ofNat cmd)) := by
  by_cases h : cmd ∈ mysql.enum
  · obtain ⟨v, hv, hin⟩ := lookup_of_mem_keys (cmdNames mysql) cmd
      (by rw [cmdNames_keys]; exact h)
    exact Or.inl ⟨v, hin, by rw [CmdToString_eq_lookup, hv]; rfl⟩
  · refine Or.inr ⟨h, ?_⟩
    rw [CmdToString_eq_lookup,
      lookup_eq_none_of_not_mem _ _ (by rw [cmdNames_keys]; exact h)]
    rfl

theorem mem_cmdNameList_of_mem (mysql : MysqlConsts) {cmd : Nat} {name : String}
    (h : (cmd, name) ∈ cmdNames mysql) : name ∈ cmdNameList := by
  rw [← cmdNames_names mysql]
  exact List.mem_map_of_mem Prod.snd h

theorem CmdToString_byte_ne_empty (mysql : MysqlConsts) (cmd : Nat) (hb : cmd < 256) :
    CmdToString mysql cmd ≠ "" := by
  rcases CmdToString_cases mysql cmd with ⟨name, hin, heq⟩ | ⟨-, heq⟩
  · rw [heq]
    exact cmdNameList_ne_empty name (mem_cmdNameList_of_mem mysql hin)
  · rw [heq, Itoa_ofNat]
    exact repr_byte_ne_empty cmd hb

theorem CmdToString_above_ComEnd (mysql : MysqlConsts) (h : mysql.WF) (cmd : Nat)
    (hgt : mysql.ComEnd < cmd) : CmdToString mysql cmd = Nat.repr cmd := by
  rcases CmdToString_cases mysql cmd with ⟨name, hin, -⟩ | ⟨-, heq⟩
  · exfalso
    have hmem : cmd ∈ mysql.enum := by
      rw [← cmdNames_keys]
      exact List.mem_map_of_mem Prod.fst hin
    have := h.2.1 cmd hmem
    omega
  · rw [heq, Itoa_ofNat]

/-! ### Indexing, injectivity and counting -/

theorem sliceIndex_of_getElem? {T : Type} (s : List T) (i : Nat) (x : T) (h : s[i]? = some x) :
    sliceIndex s i = .ok x := by
  simp [sliceIndex, h]

theorem sliceIndex_of_getElem?_none {T : Type} (s : List T) (i : Nat) (h : s[i]? = none) :
    sliceIndex s i = .error "index out of range" := by
  simp [sliceIndex, h]

theorem CmdToString_ne_of_ne (mysql : MysqlConsts) (a b : Nat) (ha : a < 256) (hb : b < 256)
    (hne : a ≠ b) : CmdToString mysql a ≠ CmdToString mysql b := by
  intro heq
  rcases CmdToString_cases mysql a with ⟨n1, hin1, h1⟩ | ⟨-, h1⟩ <;>
    rcases CmdToString_cases mysql b with ⟨n2, hin2, h2⟩ | ⟨-, h2⟩
  · have hnn : n1 = n2 := by rw [← h1, ← h2, heq]
    have hnd : ((cmdNames mysql).map Prod.snd).Nodup := by
      rw [cmdNames_names]; exact cmdNameList_nodup
    have := List.inj_on_of_nodup_map hnd hin1 hin2 hnn
    exact hne (congrArg Prod.fst this)
  · have hp1 := parseDecimal_cmdNameList n1 (mem_cmdNameList_of_mem mysql hin1)
    have hp2 := parseDecimal_repr_byte b hb
    rw [← h1, heq, h2, Itoa_ofNat, hp2] at hp1
    exact Option.noConfusion hp1
  · have hp2 := parseDecimal_cmdNameList n2 (mem_cmdNameList_of_mem mysql hin2)
    have hp1 := parseDecimal_repr_byte a ha
    rw [← h2, ← heq, h1, Itoa_ofNat, hp1] at hp2
    exact Option.noConfusion hp2
  · have hp1 := parseDecimal_repr_byte a ha
    have hp2 := parseDecimal_repr_byte b hb
    rw [h1, h2, Itoa_ofNat, Itoa_ofNat] at heq
    rw [heq, hp2] at hp1
    exact hne (Option.some.inj hp1).symm

theorem recognizedOpcodes_eq (mysql : MysqlConsts) (h : mysql.WF) :
    recognizedOpcodes mysql = Finset.range 33 := by
  ext c
  simp only [recognizedOpcodes, Finset.mem_filter, Finset.mem_range]
  constructor
  · rintro ⟨-, hne⟩
    by_contra hc
    exact hne (by rw [CmdToString_above_ComEnd mysql h c (by rw [h.2.2]; omega), Itoa_ofNat])
  · intro hc
    refine ⟨by omega, ?_⟩
    rcases CmdToString_cases mysql c with ⟨name, hin, heq⟩ | ⟨hnot, -⟩
    · intro hbad
      have hp := parseDecimal_cmdNameList name (mem_cmdNameList_of_mem mysql hin)
      rw [← heq, hbad, Itoa_ofNat, parseDecimal_repr_byte c (by omega)] at hp
      exact Option.noConfusion hp
    · exact absurd (h.mem_enum (by omega)) hnot

theorem recognizedOpcodes_card (mysql : MysqlConsts) (h : mysql.WF) :
    (recognizedOpcodes mysql).card = 33 := by
  rw [recognizedOpcodes_eq mysql h, Finset.card_range]

theorem canonicalNames_card (mysql : MysqlConsts) (h : mysql.WF) :
    (canonicalNames mysql).card = 33 := by
  unfold canonicalNames
  rw [Finset.card_image_of_injOn, recognizedOpcodes_card mysql h]
  intro a ha b hb hab
  rw [recognizedOpcodes_eq mysql h] at ha hb
  have ha' : a < 33 := by simpa using ha
  have hb' : b < 33 := by simpa using hb
  by_contra hne
  exact CmdToString_ne_of_ne mysql a b (by omega) (by omega) hne hab

/-! ## The claims -/

/-- C1. On every constant of the enumeration `mysql.ComSleep … mysql.ComEnd`
(the bytes 0..32), `CmdToString` returns that constant's identifier without
the `Com` prefix. -/
theorem CmdToString_canonical_names (mysql : MysqlConsts) (h : mysql.WF) :
    CmdToString mysql mysql.ComSleep = "Sleep" ∧
    CmdToString mysql mysql.ComQuit = "Quit" ∧
    CmdToString mysql mysql.ComInitDB = "InitDB" ∧
    CmdToString mysql mysql.ComQuery = "Query" ∧
    CmdToString mysql mysql.ComPing = "Ping" ∧
    CmdToString mysql mysql.ComFieldList = "FieldList" ∧
    CmdToString mysql mysql.ComStmtPrepare = "StmtPrepare" ∧
    CmdToString mysql mysql.ComStmtExecute = "StmtExecute" ∧
    CmdToString mysql mysql.ComStmtFetch = "StmtFetch" ∧
    CmdToString mysql mysql.ComStmtClose = "StmtClose" ∧
    CmdToString mysql mysql.ComStmtSendLongData = "StmtSendLongData" ∧
    CmdToString mysql mysql.ComStmtReset = "StmtReset" ∧
    CmdToString mysql mysql.ComSetOption = "SetOption" ∧
    CmdToString mysql mysql.ComCreateDB = "CreateDB" ∧
    CmdToString mysql mysql.ComDropDB = "DropDB" ∧
    CmdToString mysql mysql.ComRefresh = "Refresh" ∧
    CmdToString mysql mysql.ComShutdown = "Shutdown" ∧
    CmdToString mysql mysql.ComStatistics = "Statistics" ∧
    CmdToString mysql mysql.ComProcessInfo = "ProcessInfo" ∧
    CmdToString mysql mysql.ComConnect = "Connect" ∧
    CmdToString mysql mysql.ComProcessKill = "ProcessKill" ∧
    CmdToString mysql mysql.ComDebug = "Debug" ∧
    CmdToString mysql mysql.ComTime = "Time" ∧
    CmdToString mysql mysql.ComDelayedInsert = "DelayedInsert" ∧
    CmdToString mysql mysql.ComChangeUser = "ChangeUser" ∧
    CmdToString mysql mysql.ComBinlogDump = "BinlogDump" ∧
    CmdToString mysql mysql.ComTableDump = "TableDump" ∧
    CmdToString mysql mysql.ComConnectOut = "ConnectOut" ∧
    CmdToString mysql mysql.ComRegisterSlave = "RegisterSlave" ∧
    CmdToString mysql mysql.ComDaemon = "Daemon" ∧
    CmdToString mysql mysql.ComBinlogDumpGtid = "BinlogDumpGtid" ∧
    CmdToString mysql mysql.ComResetConnection = "ResetConnection" ∧
    CmdToString mysql mysql.ComEnd = "End" := by
  have key := CmdToString_of_mem mysql h.1
  simp only [cmdNames, List.forall_mem_cons, List.not_mem_nil, false_implies, implies_true,
    and_true] at key
  exact key

/-- C1, at the protocol's command bytes: 0 is `Sleep`, 3 is `Query`, 14 is
`Ping`, 31 is `ResetConnection` and 32 is `End`. -/
theorem CmdToString_canonical_names_witness :
    mysqlProtocol.WF ∧ CmdToString mysqlProtocol 0 = "Sleep" ∧
      CmdToString mysqlProtocol 3 = "Query" ∧ CmdToString mysqlProtocol 14 = "Ping" :=
  have h := CmdToString_canonical_names mysqlProtocol mysqlProtocol_WF
  ⟨mysqlProtocol_WF, h.1, h.2.2.2.1, h.2.2.2.2.1⟩

/-- C2. For every byte above `mysql.ComEnd` (33..255), `CmdToString` returns
`strconv.Itoa` of it: the base-10 numeral of the byte, without sign and
without leading zeros, which reads back as the byte. -/
theorem CmdToString_unrecognized_decimal (mysql : MysqlConsts) (h : mysql.WF) (cmd : Nat)
    (hgt : mysql.ComEnd < cmd) (hb : cmd < 256) :
    CmdToString mysql cmd = strconv.Itoa (Int.ofNat cmd) ∧
      CmdToString mysql cmd = Nat.repr cmd ∧
      isCanonicalDecimal (CmdToString mysql cmd) = true ∧
      parseDecimal (CmdToString mysql cmd) = some cmd := by
  have heq := CmdToString_above_ComEnd mysql h cmd hgt
  refine ⟨by rw [heq, Itoa_ofNat], heq, ?_, ?_⟩
  · rw [heq]; exact isCanonicalDecimal_repr_byte cmd hb
  · rw [heq]; exact parseDecimal_repr_byte cmd hb

/-- C2, at the byte 200 of the protocol's constants: the result is `"200"`. -/
theorem CmdToString_unrecognized_decimal_witness :
    CmdToString mysqlProtocol 200 = "200" ∧ parseDecimal (CmdToString mysqlProtocol 200) = some 200 :=
  have h := CmdToString_unrecognized_decimal mysqlProtocol mysqlProtocol_WF 200
    (by decide) (by decide)
  ⟨h.2.1, h.2.2.2⟩

/-- C3. `CmdToString` is total: on every byte, and on the byte that any
integer is converted to, negative integers and integers far beyond the
enumeration included, it returns a string that is not empty; it has no branch
that fails. -/
theorem CmdToString_total (mysql : MysqlConsts) :
    (∀ cmd : Nat, cmd < 256 → CmdToString mysql cmd ≠ "") ∧
      ∀ n : Int, goByte n < 256 ∧ CmdToString mysql (goByte n) ≠ "" := by
  have hlt : ∀ n : Int, goByte n < 256 := by
    intro n
    unfold goByte
    omega
  exact ⟨fun cmd hb => CmdToString_byte_ne_empty mysql cmd hb,
    fun n => ⟨hlt n, CmdToString_byte_ne_empty mysql (goByte n) (hlt n)⟩⟩

/-- C3, at the byte 255 and at the integers -1 and 1000 with the protocol's
constants: -1 converts to the byte 255, whose string is `"255"`. -/
theorem CmdToString_total_witness :
    CmdToString mysqlProtocol 255 ≠ "" ∧ goByte (-1) = 255 ∧
      CmdToString mysqlProtocol (goByte (-1)) ≠ "" ∧
      CmdToString mysqlProtocol (goByte 1000) ≠ "" :=
  ⟨(CmdToString_total mysqlProtocol).1 255 (by decide), by decide,
    ((CmdToString_total mysqlProtocol).2 (-1)).2, ((CmdToString_total mysqlProtocol).2 1000).2⟩

section Registry

variable {Counter Observer : Type}

theorem QueryTotalCountOk_getElem? (mysql : MysqlConsts) (metrics : MetricsPkg Counter Observer)
    (resourcegroup : ResourcegroupPkg) (old : Vars Counter Observer) (h : mysql.WF) (i : Nat)
    (hi : i ≤ mysql.ComEnd) :
    (InitMetricsVars mysql metrics resourcegroup old).QueryTotalCountOk[i]?
      = some (some (metrics.QueryTotalCounter.WithLabelValues
          [CmdToString mysql i, "OK", resourcegroup.DefaultResourceGroupName])) := by
  rw [QueryTotalCountOk_eq]
  exact sliceLit_cmdNames_getElem? mysql h
    (fun name => metrics.QueryTotalCounter.WithLabelValues
      [name, "OK", resourcegroup.DefaultResourceGroupName]) i hi

theorem QueryTotalCountErr_getElem? (mysql : MysqlConsts)
    (metrics : MetricsPkg Counter Observer) (resourcegroup : ResourcegroupPkg)
    (old : Vars Counter Observer) (h : mysql.WF) (i : Nat) (hi : i ≤ mysql.ComEnd) :
    (InitMetricsVars mysql metrics resourcegroup old).QueryTotalCountErr[i]?
      = some (some (metrics.QueryTotalCounter.WithLabelValues
          [CmdToString mysql i, "Error", resourcegroup.DefaultResourceGroupName])) := by
  rw [QueryTotalCountErr_eq]
  exact sliceLit_cmdNames_getElem? mysql h
    (fun name => metrics.QueryTotalCounter.WithLabelValues
      [name, "Error", resourcegroup.DefaultResourceGroupName]) i hi

theorem QueryTotalCountOk_getElem?_none (mysql : MysqlConsts)
    (metrics : MetricsPkg Counter Observer) (resourcegroup : ResourcegroupPkg)
    (old : Vars Counter Observer) (h : mysql.WF) (i : Nat) (hi : mysql.ComEnd < i) :
    (InitMetricsVars mysql metrics resourcegroup old).QueryTotalCountOk[i]? = none := by
  rw [QueryTotalCountOk_eq]
  exact sliceLit_cmdNames_getElem?_none mysql h
    (fun name => metrics.QueryTotalCounter.WithLabelValues
      [name, "OK", resourcegroup.DefaultResourceGroupName]) i hi

theorem QueryTotalCountErr_getElem?_none (mysql : MysqlConsts)
    (metrics : MetricsPkg Counter Observer) (resourcegroup : ResourcegroupPkg)
    (old : Vars Counter Observer) (h : mysql.WF) (i : Nat) (hi : mysql.ComEnd < i) :
    (InitMetricsVars mysql metrics resourcegroup old).QueryTotalCountErr[i]? = none := by
  rw [QueryTotalCountErr_eq]
  exact sliceLit_cmdNames_getElem?_none mysql h
    (fun name => metrics.QueryTotalCounter.WithLabelValues
      [name, "Error", resourcegroup.DefaultResourceGroupName]) i hi

theorem QueryTotalCountOk_length (mysql : MysqlConsts) (metrics : MetricsPkg Counter Observer)
    (resourcegroup : ResourcegroupPkg) (old : Vars Counter Observer) (h : mysql.WF) :
    (InitMetricsVars mysql metrics resourcegroup old).QueryTotalCountOk.length
      = mysql.ComEnd + 1 := by
  rw [QueryTotalCountOk_eq, length_sliceLit]
  exact sliceLitLen_cmdNames_map mysql h
    (fun name => metrics.QueryTotalCounter.WithLabelValues
      [name, "OK", resourcegroup.DefaultResourceGroupName])

theorem QueryTotalCountErr_length (mysql : MysqlConsts) (metrics : MetricsPkg Counter Observer)
    (resourcegroup : ResourcegroupPkg) (old : Vars Counter Observer) (h : mysql.WF) :
    (InitMetricsVars mysql metrics resourcegroup old).QueryTotalCountErr.length
      = mysql.ComEnd + 1 := by
  rw [QueryTotalCountErr_eq, length_sliceLit]
  exact sliceLitLen_cmdNames_map mysql h
    (fun name => metrics.QueryTotalCounter.WithLabelValues
      [name, "Error", resourcegroup.DefaultResourceGroupName])

theorem lookupCounter_of_gt (mysql : MysqlConsts) (table : List (Option Counter))
    (fallback : Counter) (opcode : Nat) (h : ¬ opcode ≤ mysql.ComEnd) :
    lookupCounter mysql table fallback opcode = .ok (some fallback) := by
  unfold lookupCounter
  rw [if_neg h]

theorem lookupCounter_of_le (mysql : MysqlConsts) (table : List (Option Counter))
    (fallback : Counter) (opcode : Nat) (h : opcode ≤ mysql.ComEnd) :
    lookupCounter mysql table fallback opcode = sliceIndex table opcode := by
  unfold lookupCounter
  rw [if_pos h]

/-- C4. After `InitMetricsVars`, for every opcode `i` in `[0, mysql.ComEnd]`
the entry `i` of `QueryTotalCountOk` is the handle of `QueryTotalCounter` for
the labels `(CmdToString(i), "OK", DefaultResourceGroupName)`, and the entry
`i` of `QueryTotalCountErr` the one for `(CmdToString(i), "Error",
DefaultResourceGroupName)`. -/
theorem InitMetricsVars_tables_agree_with_CmdToString (mysql : MysqlConsts)
    (metrics : MetricsPkg Counter Observer) (resourcegroup : ResourcegroupPkg)
    (old : Vars Counter Observer) (h : mysql.WF) (i : Nat) (hi : i ≤ mysql.ComEnd) :
    (InitMetricsVars mysql metrics resourcegroup old).QueryTotalCountOk[i]?
        = some (some (metrics.QueryTotalCounter.WithLabelValues
            [CmdToString mysql i, "OK", resourcegroup.DefaultResourceGroupName])) ∧
      (InitMetricsVars mysql metrics resourcegroup old).QueryTotalCountErr[i]?
        = some (some (metrics.QueryTotalCounter.WithLabelValues
            [CmdToString mysql i, "Error", resourcegroup.DefaultResourceGroupName])) :=
  ⟨QueryTotalCountOk_getElem? mysql metrics resourcegroup old h i hi,
    QueryTotalCountErr_getElem? mysql metrics resourcegroup old h i hi⟩

/-- C4, at opcode 3 of the protocol's constants: both entries carry the name
`Query`. -/
theorem InitMetricsVars_tables_agree_with_CmdToString_witness :
    (init mysqlProtocol (seriesBackend "ok" "error") ⟨"default"⟩).QueryTotalCountOk[3]?
        = some (some (VecId.QueryTotalCounter, ["Query", "OK", "default"])) ∧
      (init mysqlProtocol (seriesBackend "ok" "error") ⟨"default"⟩).QueryTotalCountErr[3]?
        = some (some (VecId.QueryTotalCounter, ["Query", "Error", "default"])) :=
  InitMetricsVars_tables_agree_with_CmdToString mysqlProtocol (seriesBackend "ok" "error")
    ⟨"default"⟩ Vars.zero mysqlProtocol_WF 3 (by decide)

/-- C5. After `InitMetricsVars`, both opcode-indexed slices have length
`mysql.ComEnd + 1`, which is 33. -/
theorem InitMetricsVars_table_lengths (mysql : MysqlConsts)
    (metrics : MetricsPkg Counter Observer) (resourcegroup : ResourcegroupPkg)
    (old : Vars Counter Observer) (h : mysql.WF) :
    (InitMetricsVars mysql metrics resourcegroup old).QueryTotalCountOk.length
        = mysql.ComEnd + 1 ∧
      (InitMetricsVars mysql metrics resourcegroup old).QueryTotalCountErr.length
        = mysql.ComEnd + 1 ∧
      mysql.ComEnd + 1 = 33 :=
  ⟨QueryTotalCountOk_length mysql metrics resourcegroup old h,
    QueryTotalCountErr_length mysql metrics resourcegroup old h, by rw [h.2.2]⟩

/-- C5, at the protocol's constants: both slices have 33 entries. -/
theorem InitMetricsVars_table_lengths_witness :
    (init mysqlProtocol (seriesBackend "ok" "error") ⟨"default"⟩).QueryTotalCountOk.length = 33 ∧
      (init mysqlProtocol (seriesBackend "ok" "error") ⟨"default"⟩).QueryTotalCountErr.length
        = 33 :=
  have h := InitMetricsVars_table_lengths mysqlProtocol (seriesBackend "ok" "error")
    ⟨"default"⟩ Vars.zero mysqlProtocol_WF
  ⟨h.1, h.2.1⟩

/-- C6. After `InitMetricsVars`, for every opcode `i` in `[0, mysql.ComEnd]`
indexing `QueryTotalCountOk[i]` and `QueryTotalCountErr[i]` succeeds and
yields a handle that is not `nil`: the keyed literals leave no hole. -/
theorem InitMetricsVars_tables_no_holes (mysql : MysqlConsts)
    (metrics : MetricsPkg Counter Observer) (resourcegroup : ResourcegroupPkg)
    (old : Vars Counter Observer) (h : mysql.WF) (i : Nat) (hi : i ≤ mysql.ComEnd) :
    (∃ c, sliceIndex (InitMetricsVars mysql metrics resourcegroup old).QueryTotalCountOk i
        = .ok (some c)) ∧
      (∃ c, sliceIndex (InitMetricsVars mysql metrics resourcegroup old).QueryTotalCountErr i
        = .ok (some c)) :=
  ⟨⟨_, sliceIndex_of_getElem? _ _ _
      (QueryTotalCountOk_getElem? mysql metrics resourcegroup old h i hi)⟩,
    ⟨_, sliceIndex_of_getElem? _ _ _
      (QueryTotalCountErr_getElem? mysql metrics resourcegroup old h i hi)⟩⟩

/-- C6, at the last opcode 32 of the protocol's constants. -/
theorem InitMetricsVars_tables_no_holes_witness :
    (∃ c, sliceIndex (init mysqlProtocol (seriesBackend "ok" "error") ⟨"default"⟩).QueryTotalCountOk
        32 = .ok (some c)) ∧
      (∃ c, sliceIndex
        (init mysqlProtocol (seriesBackend "ok" "error") ⟨"default"⟩).QueryTotalCountErr
        32 = .ok (some c)) :=
  InitMetricsVars_tables_no_holes mysqlProtocol (seriesBackend "ok" "error") ⟨"default"⟩
    Vars.zero mysqlProtocol_WF 32 (by decide)

/-- C7. For every byte above `mysql.ComEnd`, indexing the tables built by
`InitMetricsVars` directly is out of range, and the lookup with the explicit
bound check returns the fallback bucket instead; that lookup yields a handle
for every opcode whatsoever. -/
theorem lookupCounter_out_of_range_fallback (mysql : MysqlConsts)
    (metrics : MetricsPkg Counter Observer) (resourcegroup : ResourcegroupPkg)
    (old : Vars Counter Observer) (h : mysql.WF) (fallback : Counter) (cmd : Nat)
    (hgt : mysql.ComEnd < cmd) :
    lookupCounter mysql (InitMetricsVars mysql metrics resourcegroup old).QueryTotalCountOk
        fallback cmd = .ok (some fallback) ∧
      lookupCounter mysql (InitMetricsVars mysql metrics resourcegroup old).QueryTotalCountErr
        fallback cmd = .ok (some fallback) ∧
      sliceIndex (InitMetricsVars mysql metrics resourcegroup old).QueryTotalCountOk cmd
        = .error "index out of range" ∧
      sliceIndex (InitMetricsVars mysql metrics resourcegroup old).QueryTotalCountErr cmd
        = .error "index out of range" ∧
      ∀ opcode, (∃ c, lookupCounter mysql
          (InitMetricsVars mysql metrics resourcegroup old).QueryTotalCountOk fallback opcode
            = .ok (some c)) ∧
        (∃ c, lookupCounter mysql
          (InitMetricsVars mysql metrics resourcegroup old).QueryTotalCountErr fallback opcode
            = .ok (some c)) := by
  have hnot : ¬ cmd ≤ mysql.ComEnd := by omega
  refine ⟨lookupCounter_of_gt _ _ _ _ hnot, lookupCounter_of_gt _ _ _ _ hnot,
    sliceIndex_of_getElem?_none _ _
      (QueryTotalCountOk_getElem?_none mysql metrics resourcegroup old h cmd hgt),
    sliceIndex_of_getElem?_none _ _
      (QueryTotalCountErr_getElem?_none mysql metrics resourcegroup old h cmd hgt), ?_⟩
  intro opcode
  by_cases hop : opcode ≤ mysql.ComEnd
  · rw [lookupCounter_of_le _ _ _ _ hop, lookupCounter_of_le _ _ _ _ hop]
    exact ⟨⟨_, sliceIndex_of_getElem? _ _ _
        (QueryTotalCountOk_getElem? mysql metrics resourcegroup old h opcode hop)⟩,
      ⟨_, sliceIndex_of_getElem? _ _ _
        (QueryTotalCountErr_getElem? mysql metrics resourcegroup old h opcode hop)⟩⟩
  · rw [lookupCounter_of_gt _ _ _ _ hop, lookupCounter_of_gt _ _ _ _ hop]
    exact ⟨⟨fallback, rfl⟩, ⟨fallback, rfl⟩⟩

/-- C7, at the byte 200 with the protocol's constants: a direct index is out
of range, the checked lookup yields the fallback handle. -/
theorem lookupCounter_out_of_range_fallback_witness :
    lookupCounter mysqlProtocol
        (init mysqlProtocol (seriesBackend "ok" "error") ⟨"default"⟩).QueryTotalCountOk
        (VecId.QueryTotalCounter, ["Unknown", "OK", "default"]) 200
        = .ok (some (VecId.QueryTotalCounter, ["Unknown", "OK", "default"])) ∧
      sliceIndex (init mysqlProtocol (seriesBackend "ok" "error") ⟨"default"⟩).QueryTotalCountOk
        200 = .error "index out of range" :=
  have h := lookupCounter_out_of_range_fallback mysqlProtocol (seriesBackend "ok" "error")
    ⟨"default"⟩ Vars.zero mysqlProtocol_WF (VecId.QueryTotalCounter, ["Unknown", "OK", "default"])
    200 (by decide)
  ⟨h.1, h.2.2.1⟩

end Registry

/-- C8. `CmdToString` is one-to-one on bytes: two different bytes never get
the same string, whether each is named by a `case` or falls through to the
decimal text. -/
theorem CmdToString_injective_on_bytes (mysql : MysqlConsts) (a b : Nat) (ha : a < 256)
    (hb : b < 256) (hne : a ≠ b) : CmdToString mysql a ≠ CmdToString mysql b :=
  CmdToString_ne_of_ne mysql a b ha hb hne

/-- C8, at the bytes 3 and 33 of the protocol's constants: `Query` and `33`. -/
theorem CmdToString_injective_on_bytes_witness :
    CmdToString mysqlProtocol 3 ≠ CmdToString mysqlProtocol 33 :=
  CmdToString_injective_on_bytes mysqlProtocol 3 33 (by decide) (by decide) (by decide)

/-- C9 as stated fails: with the protocol's constants the bytes that get a
fixed name are 33 in number, not 31, and so are the names. -/
theorem recognizedOpcodes_card_ne_31 :
    (recognizedOpcodes mysqlProtocol).card ≠ 31 ∧ (canonicalNames mysqlProtocol).card ≠ 31 := by
  rw [recognizedOpcodes_card mysqlProtocol mysqlProtocol_WF,
    canonicalNames_card mysqlProtocol mysqlProtocol_WF]
  decide

/-- C9, amended. The bytes on which `CmdToString` returns a fixed name rather
than the decimal fallback are exactly the 33 bytes 0..32, and the fixed names
are 33 different strings. -/
theorem recognizedOpcodes_card_eq_33 (mysql : MysqlConsts) (h : mysql.WF) :
    recognizedOpcodes mysql = Finset.range 33 ∧ (recognizedOpcodes mysql).card = 33 ∧
      (canonicalNames mysql).card = 33 :=
  ⟨recognizedOpcodes_eq mysql h, recognizedOpcodes_card mysql h, canonicalNames_card mysql h⟩

/-- C9 amended, at the protocol's constants. -/
theorem recognizedOpcodes_card_eq_33_witness :
    (recognizedOpcodes mysqlProtocol).card = 33 ∧ (canonicalNames mysqlProtocol).card = 33 :=
  (recognizedOpcodes_card_eq_33 mysqlProtocol mysqlProtocol_WF).2

/-- C10. `InitMetricsVars` binds `DisconnectNormal` to the series of
`DisconnectionCounter` labelled `metrics.LblOK`, `DisconnectByClientWithError`
to the one labelled `metrics.LblError` and `DisconnectErrorUndetermined` to
the one labelled `"undetermined"`.  With the backend a map from series to
count, and `LblOK` different from the other two labels, an increment through
`DisconnectNormal` adds 1 to the `LblOK` series and changes no other series,
in particular neither of the other two disconnect series. -/
theorem DisconnectNormal_Inc_frame (mysql : MysqlConsts) (LblOK LblError : String)
    (resourcegroup : ResourcegroupPkg) (old : Vars Series Series) (store : Series → Nat)
    (hOE : LblOK ≠ LblError) (hOU : LblOK ≠ "undetermined") :
    (InitMetricsVars mysql (seriesBackend LblOK LblError) resourcegroup old).DisconnectNormal
        = some (VecId.DisconnectionCounter, [LblOK]) ∧
      (InitMetricsVars mysql (seriesBackend LblOK LblError) resourcegroup
        old).DisconnectByClientWithError = some (VecId.DisconnectionCounter, [LblError]) ∧
      (InitMetricsVars mysql (seriesBackend LblOK LblError) resourcegroup
        old).DisconnectErrorUndetermined = some (VecId.DisconnectionCounter, ["undetermined"]) ∧
      ∃ store', Inc store (InitMetricsVars mysql (seriesBackend LblOK LblError) resourcegroup
          old).DisconnectNormal = some store' ∧
        store' (VecId.DisconnectionCounter, [LblOK])
          = store (VecId.DisconnectionCounter, [LblOK]) + 1 ∧
        store' (VecId.DisconnectionCounter, [LblError])
          = store (VecId.DisconnectionCounter, [LblError]) ∧
        store' (VecId.DisconnectionCounter, ["undetermined"])
          = store (VecId.DisconnectionCounter, ["undetermined"]) ∧
        ∀ k, k ≠ (VecId.DisconnectionCounter, [LblOK]) → store' k = store k := by
  have hE : ((VecId.DisconnectionCounter, [LblError]) : Series)
      ≠ (VecId.DisconnectionCounter, [LblOK]) := by
    intro he
    simp only [Prod.mk.injEq, List.cons.injEq, and_true, true_and] at he
    exact hOE he.symm
  have hU : ((VecId.DisconnectionCounter, ["undetermined"]) : Series)
      ≠ (VecId.DisconnectionCounter, [LblOK]) := by
    intro he
    simp only [Prod.mk.injEq, List.cons.injEq, and_true, true_and] at he
    exact hOU he.symm
  exact ⟨rfl, rfl, rfl,
    fun k' => if k' = (VecId.DisconnectionCounter, [LblOK]) then store k' + 1 else store k',
    rfl, if_pos rfl, if_neg hE, if_neg hU, fun _ hk => if_neg hk⟩

/-- C10, with the labels `"ok"` and `"error"` and all counts at 0: after the
increment the `"ok"` series is at 1 and the other two are at 0. -/
theorem DisconnectNormal_Inc_frame_witness :
    ∃ store', Inc (fun _ => 0) (init mysqlProtocol (seriesBackend "ok" "error")
          ⟨"default"⟩).DisconnectNormal = some store' ∧
        store' (VecId.DisconnectionCounter, ["ok"]) = 1 ∧
        store' (VecId.DisconnectionCounter, ["error"]) = 0 ∧
        store' (VecId.DisconnectionCounter, ["undetermined"]) = 0 :=
  have h := DisconnectNormal_Inc_frame mysqlProtocol "ok" "error" ⟨"default"⟩ Vars.zero
    (fun _ => 0) (by decide) (by decide)
  let ⟨store', h1, h2, h3, h4, _⟩ := h.2.2.2
  ⟨store', h1, h2, h3, h4⟩

/-! ### Statement-by-statement execution -/

theorem stateAfter_all {Counter Observer : Type} (new old : Vars Counter Observer) (k : Nat)
    (hk : 9 ≤ k) : stateAfter new old k = new := by
  have htake : initStatements.take k = initStatements :=
    List.take_of_length_le (by simpa [initStatements] using hk)
  unfold stateAfter
  rw [htake]
  cases new
  cases old
  simp [initStatements, assignVar]

section
variable {Counter Observer : Type}

theorem InitMetricsVars_old_irrelevant (mysql : MysqlConsts)
    (metrics : MetricsPkg Counter Observer) (resourcegroup : ResourcegroupPkg)
    (old₁ old₂ : Vars Counter Observer) :
    InitMetricsVars mysql metrics resourcegroup old₁
      = InitMetricsVars mysql metrics resourcegroup old₂ := rfl

theorem MetricsPkg.eq_of_agree (metrics₁ metrics₂ : MetricsPkg Counter Observer)
    (hQ : ∀ lvs, metrics₂.QueryTotalCounter.WithLabelValues lvs
      = metrics₁.QueryTotalCounter.WithLabelValues lvs)
    (hD : ∀ lvs, metrics₂.DisconnectionCounter.WithLabelValues lvs
      = metrics₁.DisconnectionCounter.WithLabelValues lvs)
    (hH : ∀ lvs, metrics₂.ConnIdleDurationHistogram.WithLabelValues lvs
      = metrics₁.ConnIdleDurationHistogram.WithLabelValues lvs)
    (hP : ∀ lvs, metrics₂.PacketIOCounter.WithLabelValues lvs
      = metrics₁.PacketIOCounter.WithLabelValues lvs)
    (hOK : metrics₂.LblOK = metrics₁.LblOK) (hErr : metrics₂.LblError = metrics₁.LblError) :
    metrics₂ = metrics₁ := by
  obtain ⟨⟨q1⟩, ⟨d1⟩, ⟨c1⟩, ⟨p1⟩, ok1, er1⟩ := metrics₁
  obtain ⟨⟨q2⟩, ⟨d2⟩, ⟨c2⟩, ⟨p2⟩, ok2, er2⟩ := metrics₂
  simp only at hQ hD hH hP hOK hErr
  have e1 : q2 = q1 := funext hQ
  have e2 : d2 = d1 := funext hD
  have e3 : c2 = c1 := funext hH
  have e4 : p2 = p1 := funext hP
  subst e1 e2 e3 e4 hOK hErr
  rfl

theorem QueryTotalCount_getElem? (mysql : MysqlConsts) (metrics : MetricsPkg Counter Observer)
    (resourcegroup : ResourcegroupPkg) (old : Vars Counter Observer) (h : mysql.WF)
    (o : Outcome) (i : Nat) (hi : i ≤ mysql.ComEnd) :
    ((InitMetricsVars mysql metrics resourcegroup old).QueryTotalCount o)[i]?
      = some (some (metrics.QueryTotalCounter.WithLabelValues
          [CmdToString mysql i, o.label, resourcegroup.DefaultResourceGroupName])) := by
  cases o
  · exact QueryTotalCountOk_getElem? mysql metrics resourcegroup old h i hi
  · exact QueryTotalCountErr_getElem? mysql metrics resourcegroup old h i hi

end

theorem queryLabels_ne (mysql : MysqlConsts) (h : mysql.WF) (d : String) (i j : Nat)
    (o p : Outcome) (hi : i ≤ mysql.ComEnd) (hj : j ≤ mysql.ComEnd) (hne : (i, o) ≠ (j, p)) :
    [CmdToString mysql i, o.label, d] ≠ [CmdToString mysql j, p.label, d] := by
  intro heq
  simp only [List.cons.injEq, and_true] at heq
  obtain ⟨hname, hlabel⟩ := heq
  have hi' : i < 256 := by have := h.2.2; omega
  have hj' : j < 256 := by have := h.2.2; omega
  have hij : i = j := by
    by_contra hij
    exact CmdToString_ne_of_ne mysql i j hi' hj' hij hname
  have hop : o = p := by
    cases o <;> cases p <;> first | rfl | exact absurd hlabel (by decide)
  exact hne (by rw [hij, hop])

/-- C11. `InitMetricsVars` binds `ConnIdleDurationHistogramInTxn` to the series
of `ConnIdleDurationHistogram` labelled `"1"` and
`ConnIdleDurationHistogramNotInTxn` to the one labelled `"0"`.  An observation
through the in-transaction handle is appended to the `"1"` series and changes
no other series, in particular not the `"0"` series; and the other way round
for the handle outside a transaction. -/
theorem ConnIdleDuration_Observe_frame (mysql : MysqlConsts) (LblOK LblError : String)
    (resourcegroup : ResourcegroupPkg) (old : Vars Series Series) (V : Type)
    (store : Series → List V) (d : V) :
    (InitMetricsVars mysql (seriesBackend LblOK LblError) resourcegroup
        old).ConnIdleDurationHistogramInTxn = some (VecId.ConnIdleDurationHistogram, ["1"]) ∧
      (InitMetricsVars mysql (seriesBackend LblOK LblError) resourcegroup
        old).ConnIdleDurationHistogramNotInTxn
        = some (VecId.ConnIdleDurationHistogram, ["0"]) ∧
      (∃ store', Observe store (InitMetricsVars mysql (seriesBackend LblOK LblError)
          resourcegroup old).ConnIdleDurationHistogramInTxn d = some store' ∧
        store' (VecId.ConnIdleDurationHistogram, ["1"])
          = store (VecId.ConnIdleDurationHistogram, ["1"]) ++ [d] ∧
        store' (VecId.ConnIdleDurationHistogram, ["0"])
          = store (VecId.ConnIdleDurationHistogram, ["0"]) ∧
        ∀ k, k ≠ (VecId.ConnIdleDurationHistogram, ["1"]) → store' k = store k) ∧
      (∃ store', Observe store (InitMetricsVars mysql (seriesBackend LblOK LblError)
          resourcegroup old).ConnIdleDurationHistogramNotInTxn d = some store' ∧
        store' (VecId.ConnIdleDurationHistogram, ["0"])
          = store (VecId.ConnIdleDurationHistogram, ["0"]) ++ [d] ∧
        store' (VecId.ConnIdleDurationHistogram, ["1"])
          = store (VecId.ConnIdleDurationHistogram, ["1"]) ∧
        ∀ k, k ≠ (VecId.ConnIdleDurationHistogram, ["0"]) → store' k = store k) := by
  have h01 : ((VecId.ConnIdleDurationHistogram, ["0"]) : Series)
      ≠ (VecId.ConnIdleDurationHistogram, ["1"]) := by decide
  exact ⟨rfl, rfl,
    ⟨fun k' => if k' = (VecId.ConnIdleDurationHistogram, ["1"]) then store k' ++ [d]
        else store k',
      rfl, if_pos rfl, if_neg h01, fun _ hk => if_neg hk⟩,
    ⟨fun k' => if k' = (VecId.ConnIdleDurationHistogram, ["0"]) then store k' ++ [d]
        else store k',
      rfl, if_pos rfl, if_neg h01.symm, fun _ hk => if_neg hk⟩⟩

section
variable {Counter Observer : Type}

/-- C12. A rebuild is a full replace.  The registry that `InitMetricsVars`
leaves does not depend on the registry before it: run statement by statement
from any state, its nine assignments end in the same registry.  When handle
acquisition is idempotent (the backend of the second run returns for each
label combination the handle the first run got), `InitMetricsVars` run twice
yields the registry of one run. -/
theorem InitMetricsVars_full_replace (mysql : MysqlConsts)
    (metrics₁ metrics₂ : MetricsPkg Counter Observer) (resourcegroup : ResourcegroupPkg)
    (old₁ old₂ : Vars Counter Observer)
    (hQ : ∀ lvs, metrics₂.QueryTotalCounter.WithLabelValues lvs
      = metrics₁.QueryTotalCounter.WithLabelValues lvs)
    (hD : ∀ lvs, metrics₂.DisconnectionCounter.WithLabelValues lvs
      = metrics₁.DisconnectionCounter.WithLabelValues lvs)
    (hH : ∀ lvs, metrics₂.ConnIdleDurationHistogram.WithLabelValues lvs
      = metrics₁.ConnIdleDurationHistogram.WithLabelValues lvs)
    (hP : ∀ lvs, metrics₂.PacketIOCounter.WithLabelValues lvs
      = metrics₁.PacketIOCounter.WithLabelValues lvs)
    (hOK : metrics₂.LblOK = metrics₁.LblOK) (hErr : metrics₂.LblError = metrics₁.LblError) :
    InitMetricsVars mysql metrics₁ resourcegroup old₁
        = InitMetricsVars mysql metrics₁ resourcegroup old₂ ∧
      InitMetricsVarsSteps 9 mysql metrics₁ resourcegroup old₁
        = InitMetricsVarsSteps 9 mysql metrics₁ resourcegroup old₂ ∧
      InitMetricsVarsSteps 9 mysql metrics₁ resourcegroup old₁
        = InitMetricsVars mysql metrics₁ resourcegroup old₁ ∧
      InitMetricsVars mysql metrics₂ resourcegroup
          (InitMetricsVars mysql metrics₁ resourcegroup old₁)
        = InitMetricsVars mysql metrics₁ resourcegroup old₁ ∧
      InitMetricsVarsSteps 9 mysql metrics₂ resourcegroup
          (InitMetricsVarsSteps 9 mysql metrics₁ resourcegroup old₁)
        = InitMetricsVarsSteps 9 mysql metrics₁ resourcegroup old₁ := by
  have hm := MetricsPkg.eq_of_agree metrics₁ metrics₂ hQ hD hH hP hOK hErr
  subst hm
  have hsteps : ∀ old : Vars Counter Observer,
      InitMetricsVarsSteps 9 mysql metrics₂ resourcegroup old
        = InitMetricsVars mysql metrics₂ resourcegroup old₁ := by
    intro old
    unfold InitMetricsVarsSteps
    rw [stateAfter_all _ _ 9 (le_refl 9)]
    exact InitMetricsVars_old_irrelevant mysql metrics₂ resourcegroup old old₁
  refine ⟨InitMetricsVars_old_irrelevant mysql metrics₂ resourcegroup old₁ old₂, ?_, hsteps old₁,
    InitMetricsVars_old_irrelevant mysql metrics₂ resourcegroup _ old₁, ?_⟩
  · rw [hsteps old₁, hsteps old₂]
  · rw [hsteps old₁, hsteps _]

end

/-- C12, at the protocol's constants: a second run on the registry of the first
one, and a run on the zero state, give the same registry. -/
theorem InitMetricsVars_full_replace_witness :
    InitMetricsVars mysqlProtocol (seriesBackend "ok" "error") ⟨"default"⟩
        (init mysqlProtocol (seriesBackend "ok" "error") ⟨"default"⟩)
      = init mysqlProtocol (seriesBackend "ok" "error") ⟨"default"⟩ :=
  (InitMetricsVars_full_replace mysqlProtocol (seriesBackend "ok" "error")
    (seriesBackend "ok" "error") ⟨"default"⟩ Vars.zero Vars.zero (fun _ => rfl) (fun _ => rfl)
    (fun _ => rfl) (fun _ => rfl) rfl rfl).2.2.2.1

section
variable {Counter Observer : Type}

end

/-- C14. `InitMetricsVars` binds `InPacketBytes` to the series of
`PacketIOCounter` labelled `"In"` and `OutPacketBytes` to the one labelled
`"Out"`.  Adding bytes through one of the two handles raises its own series by
that amount and changes no other series, in particular not the series of the
other direction. -/
theorem PacketBytes_Add_frame (mysql : MysqlConsts) (LblOK LblError : String)
    (resourcegroup : ResourcegroupPkg) (old : Vars Series Series) (store : Series → Nat)
    (n : Nat) :
    (InitMetricsVars mysql (seriesBackend LblOK LblError) resourcegroup old).InPacketBytes
        = some (VecId.PacketIOCounter, ["In"]) ∧
      (InitMetricsVars mysql (seriesBackend LblOK LblError) resourcegroup old).OutPacketBytes
        = some (VecId.PacketIOCounter, ["Out"]) ∧
      (∃ store', Add store (InitMetricsVars mysql (seriesBackend LblOK LblError)
          resourcegroup old).InPacketBytes n = some store' ∧
        store' (VecId.PacketIOCounter, ["In"]) = store (VecId.PacketIOCounter, ["In"]) + n ∧
        store' (VecId.PacketIOCounter, ["Out"]) = store (VecId.PacketIOCounter, ["Out"]) ∧
        ∀ k, k ≠ (VecId.PacketIOCounter, ["In"]) → store' k = store k) ∧
      (∃ store', Add store (InitMetricsVars mysql (seriesBackend LblOK LblError)
          resourcegroup old).OutPacketBytes n = some store' ∧
        store' (VecId.PacketIOCounter, ["Out"]) = store (VecId.PacketIOCounter, ["Out"]) + n ∧
        store' (VecId.PacketIOCounter, ["In"]) = store (VecId.PacketIOCounter, ["In"]) ∧
        ∀ k, k ≠ (VecId.PacketIOCounter, ["Out"]) → store' k = store k) := by
  have hIO : ((VecId.PacketIOCounter, ["In"]) : Series) ≠ (VecId.PacketIOCounter, ["Out"]) := by
    decide
  exact ⟨rfl, rfl,
    ⟨fun k' => if k' = (VecId.PacketIOCounter, ["In"]) then store k' + n else store k',
      rfl, if_pos rfl, if_neg hIO.symm, fun _ hk => if_neg hk⟩,
    ⟨fun k' => if k' = (VecId.PacketIOCounter, ["Out"]) then store k' + n else store k',
      rfl, if_pos rfl, if_neg hIO, fun _ hk => if_neg hk⟩⟩

/-- C15. After `InitMetricsVars` the entries of the two tables are bound to 66
pairwise different label triples: for opcodes `i`, `j` in `[0, mysql.ComEnd]`
and outcomes `o`, `p` with `(i, o) ≠ (j, p)` the triple of entry `(i, o)`
differs from the triple of entry `(j, p)`.  With the backend a map from series
to count, an increment through entry `(i, o)` raises its series by 1 and
leaves the series of entry `(j, p)`, and every other series, unchanged. -/
theorem QueryTotalCount_series_distinct (mysql : MysqlConsts) (LblOK LblError : String)
    (resourcegroup : ResourcegroupPkg) (old : Vars Series Series) (store : Series → Nat)
    (h : mysql.WF) (i j : Nat) (o p : Outcome) (hi : i ≤ mysql.ComEnd)
    (hj : j ≤ mysql.ComEnd) (hne : (i, o) ≠ (j, p)) :
    ((InitMetricsVars mysql (seriesBackend LblOK LblError) resourcegroup
        old).QueryTotalCount o)[i]?
        = some (some (VecId.QueryTotalCounter,
            [CmdToString mysql i, o.label, resourcegroup.DefaultResourceGroupName])) ∧
      ((InitMetricsVars mysql (seriesBackend LblOK LblError) resourcegroup
        old).QueryTotalCount p)[j]?
        = some (some (VecId.QueryTotalCounter,
            [CmdToString mysql j, p.label, resourcegroup.DefaultResourceGroupName])) ∧
      [CmdToString mysql i, o.label, resourcegroup.DefaultResourceGroupName]
        ≠ [CmdToString mysql j, p.label, resourcegroup.DefaultResourceGroupName] ∧
      ∃ store', Inc store (((InitMetricsVars mysql (seriesBackend LblOK LblError)
          resourcegroup old).QueryTotalCount o).getD i none) = some store' ∧
        store' (VecId.QueryTotalCounter,
            [CmdToString mysql i, o.label, resourcegroup.DefaultResourceGroupName])
          = store (VecId.QueryTotalCounter,
            [CmdToString mysql i, o.label, resourcegroup.DefaultResourceGroupName]) + 1 ∧
        store' (VecId.QueryTotalCounter,
            [CmdToString mysql j, p.label, resourcegroup.DefaultResourceGroupName])
          = store (VecId.QueryTotalCounter,
            [CmdToString mysql j, p.label, resourcegroup.DefaultResourceGroupName]) ∧
        ∀ k, k ≠ (VecId.QueryTotalCounter,
            [CmdToString mysql i, o.label, resourcegroup.DefaultResourceGroupName]) →
          store' k = store k := by
  have hI := QueryTotalCount_getElem? mysql (seriesBackend LblOK LblError) resourcegroup old h
    o i hi
  have hJ := QueryTotalCount_getElem? mysql (seriesBackend LblOK LblError) resourcegroup old h
    p j hj
  have hlab := queryLabels_ne mysql h resourcegroup.DefaultResourceGroupName i j o p hi hj hne
  have hser : ((VecId.QueryTotalCounter,
      [CmdToString mysql j, p.label, resourcegroup.DefaultResourceGroupName]) : Series)
      ≠ (VecId.QueryTotalCounter,
        [CmdToString mysql i, o.label, resourcegroup.DefaultResourceGroupName]) := by
    intro heq
    exact hlab (congrArg Prod.snd heq).symm
  have hget : ((InitMetricsVars mysql (seriesBackend LblOK LblError) resourcegroup
      old).QueryTotalCount o).getD i none
      = some (VecId.QueryTotalCounter,
        [CmdToString mysql i, o.label, resourcegroup.DefaultResourceGroupName]) := by
    rw [List.getD_eq_getElem?_getD, hI]
    rfl
  refine ⟨hI, hJ, hlab, ?_⟩
  rw [hget]
  exact ⟨fun k' => if k' = (VecId.QueryTotalCounter,
      [CmdToString mysql i, o.label, resourcegroup.DefaultResourceGroupName])
      then store k' + 1 else store k',
    rfl, if_pos rfl, if_neg hser, fun _ hk => if_neg hk⟩

/-- C15, at opcode 3 of the protocol's constants and the two outcomes: the
triples `(Query, OK, default)` and `(Query, Error, default)` differ, and an
increment of the first leaves the second at 0. -/
theorem QueryTotalCount_series_distinct_witness :
    ["Query", "OK", "default"] ≠ ["Query", "Error", "default"] ∧
      ∃ store', Inc (fun _ => 0) (((init mysqlProtocol (seriesBackend "ok" "error")
          ⟨"default"⟩).QueryTotalCount Outcome.Ok).getD 3 none) = some store' ∧
        store' (VecId.QueryTotalCounter, ["Query", "OK", "default"]) = 1 ∧
        store' (VecId.QueryTotalCounter, ["Query", "Error", "default"]) = 0 :=
  have h := QueryTotalCount_series_distinct mysqlProtocol "ok" "error" ⟨"default"⟩ Vars.zero
    (fun _ => 0) mysqlProtocol_WF 3 3 Outcome.Ok Outcome.Error (by decide) (by decide)
    (by decide)
  let ⟨store', h1, h2, h3, _⟩ := h.2.2.2
  ⟨h.2.2.1, store', h1, h2, h3⟩

end ServerMetrics
